import Mathlib

/-!
Shallow embedding of `src/app.py` (mongodb-with-fastapi): a FastAPI service
over a MongoDB collection of student records.

Modelling decisions, stated once:
* The MongoDB collection is a `List StudentModel` (documents in insertion
  order; `find_one`, `update_one`, `delete_one` act on the first match, as
  MongoDB single-document operations do).
* BSON ObjectId values are carried as their 24-hex-character string form:
  `create_student` runs the documents through FastAPI's `jsonable_encoder`
  before insertion, and `StudentModel.Config.json_encoders` maps
  `ObjectId -> str`, so the documents that actually reach the collection hold
  the identifier as a string under the key `"_id"`.
* Python floats for `gpa` are modelled as `Rat`; the comparisons the code
  performs (`le=4.0`) are exact at the values the claims mention.
* `EmailStr` (pydantic's email-validator) is modelled by the executable
  `emailValidModel` below: one `@`, non-empty local part, domain with a dot
  and non-empty labels, no spaces.  Claims only rely on clearly valid /
  clearly invalid addresses.
* Async/await and the HTTP layer are elided; each handler is a pure function
  from the collection state (plus request data) to a result, the updated
  state, and the list of storage calls it issued.
-/

/-- Wire/storage value for one JSON field (the service only ever stores
strings and numbers). -/
inductive JVal where
  | str (s : String)
  | num (q : Rat)
  deriving Repr, DecidableEq

/-- One stored/validated student record.  Field declaration order follows
`StudentModel` in `app.py`: `id` (pydantic field name; wire alias `"_id"`),
`name`, `email`, `course`, `gpa`. -/
structure StudentModel where
  id : String
  name : String
  email : String
  course : String
  gpa : Rat
  deriving Repr, DecidableEq

/-- Parsed `UpdateStudentModel`: every field optional (pydantic v1 gives
`Optional[...]` fields an implicit default of `None`). -/
structure UpdateStudentModel where
  name : Option String
  email : Option String
  course : Option String
  gpa : Option Rat
  deriving Repr, DecidableEq

/-- Raw JSON create request body, typed per field.  `none` means the key is
absent from the body.  The `id` field models a client-supplied `"_id"` (or,
via `allow_population_by_field_name`, `"id"`) key. -/
structure CreateBody where
  id : Option String
  name : Option String
  email : Option String
  course : Option String
  gpa : Option Rat
  deriving Repr, DecidableEq

/-- Raw JSON update request body.  Each field is three-state:
`none` = key absent, `some none` = key present with JSON `null`,
`some (some v)` = key present with value `v`. -/
structure PatchBody where
  name : Option (Option String)
  email : Option (Option String)
  course : Option (Option String)
  gpa : Option (Option Rat)
  deriving Repr, DecidableEq

/-- Error taxonomy of the service (spec section 7).  `invalidIdentifier` is
listed in the spec's taxonomy; whether any handler ever produces it is
exactly what claim C3 is about. -/
inductive Err where
  | validation (msg : String)
  | notFound (id : String)
  | invalidIdentifier (id : String)
  | storage (msg : String)
  deriving Repr, DecidableEq

/-- Storage-engine primitives invoked by a handler, with the argument data
that crosses the service/storage boundary. -/
inductive StorageCall where
  | findOne (id : String)
  | insertOne (id : String)
  | updateOne (id : String)
  | deleteOne (id : String)
  deriving Repr, DecidableEq

/-- The collection `db["students"]`. -/
abbrev Store := List StudentModel

/-- Hexadecimal digit test used by `bson.ObjectId.is_valid` on strings. -/
def isHexDigitChar (c : Char) : Bool :=
  (('0').toNat ≤ c.toNat && c.toNat ≤ ('9').toNat) ||
  (('a').toNat ≤ c.toNat && c.toNat ≤ ('f').toNat) ||
  (('A').toNat ≤ c.toNat && c.toNat ≤ ('F').toNat)

/-- Embeds `ObjectId.is_valid` for string input: exactly 24 hexadecimal
characters (this is the check `PyObjectId.validate` performs). -/
def isValidObjectId (s : String) : Bool :=
  s.length == 24 && s.toList.all isHexDigitChar

/-- ASCII lower-casing of one character (used to embed the canonical
lowercase hex rendering `str(ObjectId(v))`). -/
def toLowerChar (c : Char) : Char :=
  if ('A').toNat ≤ c.toNat && c.toNat ≤ ('Z').toNat then
    Char.ofNat (c.toNat + 32)
  else
    c

/-- Canonical lowercase form of an identifier string, as rendered by
`str(ObjectId(v))`. -/
def lowerStr (s : String) : String := ⟨s.toList.map toLowerChar⟩

/-- Splits a character list at every occurrence of `sep` (the behaviour of
Python's `str.split(sep)` on the lists of characters involved here). -/
def splitOnChar (sep : Char) : List Char → List (List Char)
  | [] => [[]]
  | c :: rest =>
    let r := splitOnChar sep rest
    if c = sep then [] :: r
    else
      match r with
      | [] => [[c]]
      | g :: gs => (c :: g) :: gs

/-- Embeds the email-syntax acceptance of pydantic's `EmailStr`
(simplified, see file header): exactly one `@`, non-empty local part, a
domain containing a `.` with non-empty labels, and no whitespace. -/
def emailValidModel (s : String) : Bool :=
  match splitOnChar '@' s.toList with
  | [local_, domain] =>
    !local_.isEmpty && !domain.isEmpty &&
    (s.toList.all fun c => !c.isWhitespace) &&
    (splitOnChar '.' domain).length ≥ 2 &&
    ((splitOnChar '.' domain).all fun lab => !lab.isEmpty)
  | _ => false

/-- Embeds the non-`id` field validation of `StudentModel`:
`name: str = Field(...)`, `email: EmailStr = Field(...)`,
`course: str = Field(...)`, `gpa: float = Field(..., le=4.0)`.
All four are required; `name` and `course` have no constraint beyond being
strings (the empty string is a valid `str`); `gpa` only has the upper bound
`le=4.0`. -/
def validateFields (idv : String) (b : CreateBody) : Except String StudentModel :=
  match b.name, b.email, b.course, b.gpa with
  | some n, some e, some c, some g =>
    if emailValidModel e then
      if g ≤ 4 then
        Except.ok { id := idv, name := n, email := e, course := c, gpa := g }
      else
        Except.error "gpa: ensure this value is less than or equal to 4.0"
    else
      Except.error "email: value is not a valid email address"
  | _, _, _, _ => Except.error "field required"

/-- Embeds pydantic construction of a `StudentModel` from a create body.
The `id` field has `default_factory=PyObjectId` with alias `"_id"` and
`allow_population_by_field_name = True`: when the body carries an id it is
run through `PyObjectId.validate` (rejecting anything that is not 24 hex
characters) and kept — lower-cased, since `str(ObjectId(v))` renders
canonical lowercase hex; when the body carries no id, the application-side
factory supplies a fresh ObjectId, passed in here as `freshId`. -/
def validateCreate (freshId : String) (b : CreateBody) : Except String StudentModel :=
  match b.id with
  | some s =>
      if isValidObjectId s then validateFields (lowerStr s) b
      else Except.error "id: Invalid objectid"
  | none => validateFields freshId b

/-- Collapses a three-state body field the way pydantic v1 does for an
`Optional` field: an absent key and an explicit `null` both yield `None`. -/
def parseField (f : Option (Option α)) : Option α :=
  match f with
  | none => none
  | some none => none
  | some (some v) => some v

/-- Embeds pydantic construction of an `UpdateStudentModel` from an update
body: every field is optional (never fails on a missing key), and the only
present-value constraint in the model is `email: Optional[EmailStr]`
(`gpa: Optional[float]` carries no `le` bound). -/
def parseUpdateBody (b : PatchBody) : Except String UpdateStudentModel :=
  match b.email with
  | some (some e) =>
    if emailValidModel e then
      Except.ok { name := parseField b.name, email := some e,
                  course := parseField b.course, gpa := parseField b.gpa }
    else
      Except.error "email: value is not a valid email address"
  | _ =>
    Except.ok { name := parseField b.name, email := none,
                course := parseField b.course, gpa := parseField b.gpa }

/-- Embeds `jsonable_encoder(student)` as used in `create_student` (and the
shape of the stored/returned document): FastAPI's `jsonable_encoder` uses
`by_alias=True` by default, so the identifier is emitted under its alias
`"_id"`, converted to `str` by `json_encoders = {ObjectId: str}`. -/
def encodeStudent (s : StudentModel) : List (String × JVal) :=
  [("_id", JVal.str s.id), ("name", JVal.str s.name), ("email", JVal.str s.email),
   ("course", JVal.str s.course), ("gpa", JVal.num s.gpa)]

/-- Embeds `db["students"].find_one({"_id": id})`: first document whose
`_id` equals the given string, if any. -/
def find_one (db : Store) (id : String) : Option StudentModel :=
  match db with
  | [] => none
  | d :: rest => if d.id = id then some d else find_one rest id

/-- Embeds `db["students"].insert_one(student)`: MongoDB maintains a unique
index on `_id`, so inserting a duplicate identifier raises a duplicate-key
error; otherwise the document is appended and `inserted_id` returned. -/
def insert_one (db : Store) (s : StudentModel) : Except String (Store × String) :=
  match find_one db s.id with
  | some _ => Except.error "E11000 duplicate key error"
  | none => Except.ok (db ++ [s], s.id)

/-- Embeds the `$set` update document built in `update_student`: every field
present in the filtered patch overwrites, every absent field is untouched
(`_id` is never part of the patch). -/
def applySet (d : StudentModel) (u : UpdateStudentModel) : StudentModel :=
  { d with
    name := u.name.getD d.name
    email := u.email.getD d.email
    course := u.course.getD d.course
    gpa := u.gpa.getD d.gpa }

/-- Embeds `update_one({"_id": id}, {"$set": patch})`: modifies the first
matching document; `modified_count` (the second component) is 1 only when
the `$set` actually changed the document, 0 when it matched nothing or
rewrote identical values. -/
def update_one (db : Store) (id : String) (u : UpdateStudentModel) : Store × Nat :=
  match db with
  | [] => ([], 0)
  | d :: rest =>
    if d.id = id then
      (applySet d u :: rest, if applySet d u = d then 0 else 1)
    else
      let r := update_one rest id u
      (d :: r.1, r.2)

/-- Embeds `delete_one({"_id": id})`: removes the first matching document;
the second component is `deleted_count`. -/
def delete_one (db : Store) (id : String) : Store × Nat :=
  match db with
  | [] => ([], 0)
  | d :: rest =>
    if d.id = id then
      (rest, 1)
    else
      let r := delete_one rest id
      (d :: r.1, r.2)

/-- Embeds the `POST /` handler `create_student`: validate the body into a
`StudentModel` (422 on failure), `jsonable_encoder`, `insert_one`, then
`find_one` on `inserted_id`; answers 201 with the found document (the code
would answer 201 with `null` if that lookup failed, hence the `Option`). -/
def create_student (db : Store) (freshId : String) (body : CreateBody) :
    Except Err (Store × Option StudentModel) :=
  match validateCreate freshId body with
  | Except.error e => Except.error (Err.validation e)
  | Except.ok s =>
    match insert_one db s with
    | Except.error e => Except.error (Err.storage e)
    | Except.ok (db1, insertedId) => Except.ok (db1, find_one db1 insertedId)

/-- Embeds the `GET /{id}` handler `show_student`: a single
`find_one({"_id": id})` on the raw path parameter (no identifier parsing),
200 with the document on a hit, otherwise
`HTTPException(404, "Student {id} not found")`.  The second component is
the list of storage calls the handler issued. -/
def show_student (db : Store) (id : String) :
    Except Err StudentModel × List StorageCall :=
  match find_one db id with
  | some student => (Except.ok student, [StorageCall.findOne id])
  | none => (Except.error (Err.notFound id), [StorageCall.findOne id])

/-- Filtered patch test: `len({k: v for k, v in student.dict().items() if v
is not None}) >= 1`. -/
def patchNonempty (u : UpdateStudentModel) : Bool :=
  u.name.isSome || u.email.isSome || u.course.isSome || u.gpa.isSome

/-- Embeds the tail of `update_student` (the `existing_student` lookup):
return the record with this id unaltered if it exists, else 404.  `tr` is
the trace of storage calls issued before reaching this point. -/
def updateFallback (db : Store) (id : String) (tr : List StorageCall) :
    Except Err StudentModel × Store × List StorageCall :=
  match find_one db id with
  | some existing => (Except.ok existing, db, tr ++ [StorageCall.findOne id])
  | none => (Except.error (Err.notFound id), db, tr ++ [StorageCall.findOne id])

/-- Embeds the `PUT /{id}` handler `update_student`: parse the body (422 on
failure), drop `None`-valued fields, and if any field remains run
`update_one` with `$set`; when `modified_count == 1` re-fetch and return the
updated document; otherwise (and also when no fields remain) fall back to
returning the existing document unaltered, or 404 if none exists. -/
def update_student (db : Store) (id : String) (body : PatchBody) :
    Except Err StudentModel × Store × List StorageCall :=
  match parseUpdateBody body with
  | Except.error e => (Except.error (Err.validation e), db, [])
  | Except.ok u =>
    if patchNonempty u then
      if (update_one db id u).2 = 1 then
        match find_one (update_one db id u).1 id with
        | some updated =>
          (Except.ok updated, (update_one db id u).1,
           [StorageCall.updateOne id, StorageCall.findOne id])
        | none =>
          updateFallback (update_one db id u).1 id
            [StorageCall.updateOne id, StorageCall.findOne id]
      else
        updateFallback (update_one db id u).1 id [StorageCall.updateOne id]
    else
      updateFallback db id []

/-- Embeds the `DELETE /{id}` handler `delete_student`: one
`delete_one({"_id": id})`; 204 (empty body, modelled as `Unit`) when
`deleted_count == 1`, else 404. -/
def delete_student (db : Store) (id : String) :
    Except Err Unit × Store × List StorageCall :=
  if (delete_one db id).2 = 1 then
    (Except.ok (), (delete_one db id).1, [StorageCall.deleteOne id])
  else
    (Except.error (Err.notFound id), (delete_one db id).1, [StorageCall.deleteOne id])

/-- Patch body with no keys. -/
def emptyPatchBody : PatchBody := { name := none, email := none, course := none, gpa := none }

/-- Patch body whose only key is `name`. -/
def namePatchBody (n : String) : PatchBody :=
  { name := some (some n), email := none, course := none, gpa := none }

/-- Patch body whose only key is `gpa`. -/
def gpaPatchBody (v : Rat) : PatchBody :=
  { name := none, email := none, course := none, gpa := some (some v) }

/-- Removes the keys that are present with value `null` from a patch body. -/
def stripNullField (f : Option (Option α)) : Option (Option α) :=
  match f with
  | some none => none
  | x => x

/-- A patch body with all of its `null`-valued keys removed. -/
def stripNulls (b : PatchBody) : PatchBody :=
  { name := stripNullField b.name, email := stripNullField b.email,
    course := stripNullField b.course, gpa := stripNullField b.gpa }

/-! Helper lemmas about the storage primitives. -/

theorem applySet_id (d : StudentModel) (u : UpdateStudentModel) :
    (applySet d u).id = d.id := rfl

theorem find_one_eq_none_of_forall (db : Store) (id : String)
    (h : ∀ s ∈ db, s.id ≠ id) : find_one db id = none := by
  induction db with
  | nil => rfl
  | cons d rest ih =>
    have hd : d.id ≠ id := h d (List.mem_cons_self d rest)
    simp [find_one, hd]
    exact ih fun s hs => h s (List.mem_cons_of_mem d hs)

theorem find_one_isSome_iff (db : Store) (id : String) :
    (find_one db id).isSome = true ↔ ∃ s ∈ db, s.id = id := by
  induction db with
  | nil => simp [find_one]
  | cons d rest ih =>
    by_cases hd : d.id = id
    · simp [find_one, hd]
    · simp only [find_one, if_neg hd, ih]
      constructor
      · rintro ⟨s, hs, hsid⟩
        exact ⟨s, List.mem_cons_of_mem d hs, hsid⟩
      · rintro ⟨s, hs, hsid⟩
        rcases List.mem_cons.mp hs with h1 | h1
        · exact absurd (h1 ▸ hsid) hd
        · exact ⟨s, h1, hsid⟩

theorem find_one_append_self (db : Store) (s : StudentModel)
    (h : find_one db s.id = none) : find_one (db ++ [s]) s.id = some s := by
  induction db with
  | nil => simp [find_one]
  | cons d rest ih =>
    simp only [find_one] at h ⊢
    by_cases hd : d.id = s.id
    · rw [if_pos hd] at h; exact absurd h (by simp)
    · rw [if_neg hd] at h ⊢
      exact ih h

theorem update_one_of_none (db : Store) (id : String) (u : UpdateStudentModel)
    (h : find_one db id = none) : update_one db id u = (db, 0) := by
  induction db with
  | nil => rfl
  | cons d rest ih =>
    simp only [find_one] at h
    by_cases hd : d.id = id
    · rw [if_pos hd] at h; exact absurd h (by simp)
    · rw [if_neg hd] at h
      simp [update_one, hd, ih h]

theorem update_one_of_some (db : Store) (id : String) (u : UpdateStudentModel)
    (R : StudentModel) (h : find_one db id = some R) :
    find_one (update_one db id u).1 id = some (applySet R u)
    ∧ (update_one db id u).2 = (if applySet R u = R then 0 else 1)
    ∧ (applySet R u = R → (update_one db id u).1 = db) := by
  induction db with
  | nil => simp [find_one] at h
  | cons d rest ih =>
    simp only [find_one] at h
    by_cases hd : d.id = id
    · rw [if_pos hd] at h
      have hR : d = R := by simpa using h
      subst hR
      refine ⟨?_, ?_, ?_⟩
      · simp [update_one, hd, find_one, applySet_id]
      · simp [update_one, hd]
      · intro he
        simp [update_one, hd, he]
    · rw [if_neg hd] at h
      have := ih h
      refine ⟨?_, ?_, ?_⟩
      · simpa [update_one, hd, find_one] using this.1
      · simpa [update_one, hd] using this.2.1
      · intro he
        simp [update_one, hd, this.2.2 he]

theorem delete_one_of_none (db : Store) (id : String)
    (h : find_one db id = none) : delete_one db id = (db, 0) := by
  induction db with
  | nil => rfl
  | cons d rest ih =>
    simp only [find_one] at h
    by_cases hd : d.id = id
    · rw [if_pos hd] at h; exact absurd h (by simp)
    · rw [if_neg hd] at h
      simp [delete_one, hd, ih h]

theorem delete_one_of_some (db : Store) (id : String) (R : StudentModel)
    (h : find_one db id = some R) :
    (delete_one db id).2 = 1 ∧ db.length = (delete_one db id).1.length + 1 := by
  induction db with
  | nil => simp [find_one] at h
  | cons d rest ih =>
    simp only [find_one] at h
    by_cases hd : d.id = id
    · simp [delete_one, hd]
    · rw [if_neg hd] at h
      have := ih h
      constructor
      · simpa [delete_one, hd] using this.1
      · simpa [delete_one, hd] using this.2

theorem delete_one_nodup_gone (db : Store) (id : String)
    (hnd : (db.map StudentModel.id).Nodup)
    (h : (find_one db id).isSome = true) :
    find_one (delete_one db id).1 id = none := by
  induction db with
  | nil => simp [find_one] at h
  | cons d rest ih =>
    simp only [List.map_cons, List.nodup_cons] at hnd
    by_cases hd : d.id = id
    · simp only [delete_one, if_pos hd]
      apply find_one_eq_none_of_forall
      intro s hs hsid
      apply hnd.1
      rw [hd, ← hsid]
      exact List.mem_map_of_mem StudentModel.id hs
    · simp only [find_one, if_neg hd] at h
      simp only [delete_one, if_neg hd]
      simp [find_one, hd]
      exact ih hnd.2 h

/-! Helper lemmas about pydantic validation. -/

theorem validateFields_proj (idv : String) (b : CreateBody) (S : StudentModel)
    (h : validateFields idv b = Except.ok S) :
    b.name = some S.name ∧ b.email = some S.email ∧ b.course = some S.course
    ∧ b.gpa = some S.gpa ∧ S.id = idv := by
  obtain ⟨bid, bn, be, bc, bg⟩ := b
  cases bn <;> cases be <;> cases bc <;> cases bg <;>
    simp only [validateFields] at h <;>
    try exact Except.noConfusion h
  split at h
  · split at h
    · injection h with h2
      subst h2
      simp
    · exact Except.noConfusion h
  · exact Except.noConfusion h

theorem validateCreate_proj (freshId : String) (b : CreateBody) (S : StudentModel)
    (h : validateCreate freshId b = Except.ok S) :
    b.name = some S.name ∧ b.email = some S.email ∧ b.course = some S.course
    ∧ b.gpa = some S.gpa := by
  obtain ⟨bid, bn, be, bc, bg⟩ := b
  cases bid with
  | none =>
    simp only [validateCreate] at h
    have hp := validateFields_proj freshId ⟨none, bn, be, bc, bg⟩ S h
    exact ⟨hp.1, hp.2.1, hp.2.2.1, hp.2.2.2.1⟩
  | some s =>
    simp only [validateCreate] at h
    by_cases hv : isValidObjectId s = true
    · rw [if_pos hv] at h
      have hp := validateFields_proj (lowerStr s) ⟨some s, bn, be, bc, bg⟩ S h
      exact ⟨hp.1, hp.2.1, hp.2.2.1, hp.2.2.2.1⟩
    · rw [if_neg hv] at h
      exact Except.noConfusion h

theorem validateCreate_id (freshId : String) (b : CreateBody) (S : StudentModel)
    (h : validateCreate freshId b = Except.ok S) :
    S.id = (match b.id with | some s => lowerStr s | none => freshId) := by
  obtain ⟨bid, bn, be, bc, bg⟩ := b
  cases bid with
  | none =>
    simp only [validateCreate] at h
    exact (validateFields_proj freshId ⟨none, bn, be, bc, bg⟩ S h).2.2.2.2
  | some s =>
    simp only [validateCreate] at h
    by_cases hv : isValidObjectId s = true
    · rw [if_pos hv] at h
      exact (validateFields_proj (lowerStr s) ⟨some s, bn, be, bc, bg⟩ S h).2.2.2.2
    · rw [if_neg hv] at h
      exact Except.noConfusion h

theorem validateCreate_error_iff (freshId : String) (b : CreateBody) :
    (∃ msg, validateCreate freshId b = Except.error msg) ↔
      ((∃ s, b.id = some s ∧ isValidObjectId s = false)
       ∨ b.name = none ∨ b.email = none ∨ b.course = none ∨ b.gpa = none
       ∨ (∃ e, b.email = some e ∧ emailValidModel e = false)
       ∨ (∃ g, b.gpa = some g ∧ 4 < g)) := by
  obtain ⟨bid, bn, be, bc, bg⟩ := b
  cases bid <;> cases bn <;> cases be <;> cases bc <;> cases bg <;>
    simp [validateCreate, validateFields] <;>
    (repeat' split) <;>
    simp_all [not_le]

theorem parseUpdateBody_error_iff (b : PatchBody) :
    (∃ msg, parseUpdateBody b = Except.error msg) ↔
      (∃ e, b.email = some (some e) ∧ emailValidModel e = false) := by
  obtain ⟨bn, be, bc, bg⟩ := b
  cases be with
  | none => simp [parseUpdateBody]
  | some oe =>
    cases oe with
    | none => simp [parseUpdateBody]
    | some e =>
      simp only [parseUpdateBody]
      split <;> simp_all

theorem parseField_stripNullField (f : Option (Option α)) :
    parseField (stripNullField f) = parseField f := by
  rcases f with _ | _ | v <;> rfl

theorem stripNullField_absent : stripNullField (none : Option (Option α)) = none := rfl

theorem stripNullField_null : stripNullField (some (none : Option α)) = none := rfl

theorem stripNullField_value (v : α) : stripNullField (some (some v)) = some (some v) := rfl

theorem parseUpdateBody_stripNulls (b : PatchBody) :
    parseUpdateBody (stripNulls b) = parseUpdateBody b := by
  obtain ⟨bn, be, bc, bg⟩ := b
  cases be with
  | none =>
    simp [parseUpdateBody, stripNulls, stripNullField_absent, parseField_stripNullField]
  | some oe =>
    cases oe with
    | none =>
      simp [parseUpdateBody, stripNulls, stripNullField_null, parseField_stripNullField]
    | some e =>
      simp [parseUpdateBody, stripNulls, stripNullField_value, parseField_stripNullField]

/-! Concrete sample data used by the claim witnesses and counterexamples. -/

/-- A fresh application-generated ObjectId (24 lowercase hex characters). -/
def fid0 : String := "0123456789abcdef01234567"

/-- The create body of the spec's concrete scenario (section 8), without id. -/
def bodyJane : CreateBody :=
  { id := none, name := some "Jane Doe", email := some "jdoe@example.com",
    course := some "Nanophotonics", gpa := some 3 }

/-- The record `create` persists for `bodyJane` when the fresh id is `fid0`. -/
def studentJane : StudentModel :=
  { id := fid0, name := "Jane Doe", email := "jdoe@example.com",
    course := "Nanophotonics", gpa := 3 }

/-! Claim theorems. -/

/-- Claim C1, counterexample: an update body whose only present field is
`gpa = 5` (greater than 4.0) is accepted by `UpdateStudentModel`
construction; it does not fail with a ValidationError as the claim states,
because `gpa: Optional[float]` in `UpdateStudentModel` carries no `le=4.0`
bound. -/
theorem C1_counterexample :
    parseUpdateBody (gpaPatchBody 5)
      = Except.ok { name := none, email := none, course := none, gpa := some 5 }
    ∧ (4 : Rat) < 5 := by
  exact ⟨rfl, by norm_num⟩

/-- Claim C1 (amended): construction of a `StudentPatch` never fails when
fields are missing, and the only per-field constraint applied to a present
field is email syntax; `name`, `course` and `gpa` are unconstrained, so a
present `gpa` greater than 4.0 is accepted. -/
theorem C1_patch_validation (b : PatchBody) :
    (∃ msg, parseUpdateBody b = Except.error msg) ↔
      (∃ e, b.email = some (some e) ∧ emailValidModel e = false) :=
  parseUpdateBody_error_iff b

/-- Witness for C1: at the concrete body whose email key holds the invalid
address `"bad"`, construction does fail. -/
theorem C1_patch_validation_witness :
    ∃ msg, parseUpdateBody
      { name := none, email := some (some "bad"), course := none, gpa := none }
      = Except.error msg :=
  (C1_patch_validation
    { name := none, email := some (some "bad"), course := none, gpa := none }).mpr
    ⟨"bad", rfl, rfl⟩

/-- Claim C2, counterexample: a create body with an empty `name` (and an
empty `course`) passes Student construction, while the claim states that an
absent *or empty* name or course fails with ValidationError; pydantic's
`str = Field(...)` only requires presence, not non-emptiness. -/
theorem C2_counterexample :
    validateCreate fid0
      { id := none, name := some "", email := some "jdoe@example.com",
        course := some "", gpa := some 3 }
      = Except.ok { id := fid0, name := "", email := "jdoe@example.com",
                    course := "", gpa := 3 } := by
  rfl

/-- Claim C2 (amended): Student construction fails iff `name`, `email`,
`course` or `gpa` is absent, a supplied id is not a well-formed ObjectId, a
present email is not syntactically valid, or a present gpa exceeds 4.0.
Empty `name`/`course` strings are accepted; `gpa = 4.0` is accepted,
`gpa = 4.0001` is rejected, and no lower bound on gpa is enforced. -/
theorem C2_student_validation (freshId : String) (b : CreateBody) :
    ((∃ msg, validateCreate freshId b = Except.error msg) ↔
      ((∃ s, b.id = some s ∧ isValidObjectId s = false)
       ∨ b.name = none ∨ b.email = none ∨ b.course = none ∨ b.gpa = none
       ∨ (∃ e, b.email = some e ∧ emailValidModel e = false)
       ∨ (∃ g, b.gpa = some g ∧ 4 < g)))
    ∧ (∃ S, validateCreate fid0 { bodyJane with gpa := some 4 } = Except.ok S)
    ∧ (∃ msg, validateCreate fid0 { bodyJane with gpa := some 4.0001 }
                = Except.error msg)
    ∧ (∃ S, validateCreate fid0 { bodyJane with gpa := some (-100) } = Except.ok S) := by
  refine ⟨validateCreate_error_iff freshId b, ⟨_, rfl⟩, ?_, ⟨_, rfl⟩⟩
  exact (validateCreate_error_iff fid0 _).mpr
    (Or.inr (Or.inr (Or.inr (Or.inr (Or.inr (Or.inr ⟨4.0001, rfl, by norm_num⟩))))))

/-- Witness for C2: at the concrete body missing its `gpa` key, Student
construction does fail. -/
theorem C2_student_validation_witness :
    ∃ msg, validateCreate fid0 { bodyJane with gpa := none } = Except.error msg :=
  (C2_student_validation fid0 { bodyJane with gpa := none }).1.mpr
    (Or.inr (Or.inr (Or.inr (Or.inr (Or.inl rfl)))))

/-- Claim C10: in `update_student`, a patch field supplied as JSON `null` is
treated identically to an absent field — the handler's behaviour on any body
equals its behaviour on the body with all null-valued fields removed — and a
body whose fields are all `null` behaves exactly like the empty patch. -/
theorem C10_null_fields_equal_absent (db : Store) (id : String) (b : PatchBody) :
    update_student db id b = update_student db id (stripNulls b)
    ∧ update_student db id
        { name := some none, email := some none, course := some none, gpa := some none }
      = update_student db id emptyPatchBody := by
  constructor
  · simp only [update_student, parseUpdateBody_stripNulls]
  · rfl

/-! Lemmas about the update handler's two paths. -/

theorem updateFallback_found (db : Store) (id : String) (tr : List StorageCall)
    (R : StudentModel) (h : find_one db id = some R) :
    updateFallback db id tr = (Except.ok R, db, tr ++ [StorageCall.findOne id]) := by
  simp [updateFallback, h]

theorem updateFallback_notfound (db : Store) (id : String) (tr : List StorageCall)
    (h : find_one db id = none) :
    updateFallback db id tr
      = (Except.error (Err.notFound id), db, tr ++ [StorageCall.findOne id]) := by
  simp [updateFallback, h]

theorem update_student_found (db : Store) (id : String) (b : PatchBody)
    (u : UpdateStudentModel) (R : StudentModel)
    (hb : parseUpdateBody b = Except.ok u) (hne : patchNonempty u = true)
    (h : find_one db id = some R) :
    (update_student db id b).1 = Except.ok (applySet R u)
    ∧ find_one (update_student db id b).2.1 id = some (applySet R u)
    ∧ (applySet R u = R → (update_student db id b).2.1 = db) := by
  obtain ⟨hf, hc, hdb⟩ := update_one_of_some db id u R h
  by_cases heq : applySet R u = R
  · have hc0 : (update_one db id u).2 = 0 := by rw [hc, if_pos heq]
    have hdb0 : (update_one db id u).1 = db := hdb heq
    have hstep : update_student db id b
        = updateFallback db id [StorageCall.updateOne id] := by
      simp only [update_student, hb, hne, if_true]
      rw [hc0, hdb0]
      simp
    rw [hstep, updateFallback_found db id [StorageCall.updateOne id] R h, heq]
    exact ⟨rfl, by simpa using h, fun _ => rfl⟩
  · have hc1 : (update_one db id u).2 = 1 := by rw [hc, if_neg heq]
    have hstep : update_student db id b
        = (Except.ok (applySet R u), (update_one db id u).1,
           [StorageCall.updateOne id, StorageCall.findOne id]) := by
      simp only [update_student, hb, hne, if_true]
      rw [hc1]
      simp only [if_true]
      rw [hf]
    rw [hstep]
    exact ⟨rfl, hf, fun hcontra => absurd hcontra heq⟩

/-- Claim C5: for an existing record R, the empty patch and the patch whose
only field is `name = R.name` both succeed, both return R unaltered, and
both leave the collection unchanged: the filtered-empty path and the
zero-modified-count path collapse to the same fetch-and-return behaviour. -/
theorem C5_noop_update_equivalence (db : Store) (R : StudentModel)
    (h : find_one db R.id = some R) :
    (update_student db R.id emptyPatchBody).1 = Except.ok R
    ∧ (update_student db R.id emptyPatchBody).2.1 = db
    ∧ (update_student db R.id (namePatchBody R.name)).1 = Except.ok R
    ∧ (update_student db R.id (namePatchBody R.name)).2.1 = db := by
  have hEmpty : update_student db R.id emptyPatchBody = updateFallback db R.id [] := rfl
  have hA : applySet R { name := some R.name, email := none, course := none, gpa := none }
      = R := rfl
  obtain ⟨h1, h2, h3⟩ := update_student_found db R.id (namePatchBody R.name)
    { name := some R.name, email := none, course := none, gpa := none } R rfl rfl h
  rw [hA] at h1
  refine ⟨?_, ?_, h1, h3 hA⟩
  · rw [hEmpty, updateFallback_found db R.id [] R h]
  · rw [hEmpty, updateFallback_found db R.id [] R h]

/-- Witness for C5 at a concrete one-record collection. -/
theorem C5_noop_update_equivalence_witness :
    (update_student [studentJane] studentJane.id emptyPatchBody).1
      = Except.ok studentJane
    ∧ (update_student [studentJane] studentJane.id (namePatchBody studentJane.name)).1
      = Except.ok studentJane := by
  have hh := C5_noop_update_equivalence [studentJane] studentJane rfl
  exact ⟨hh.1, hh.2.2.1⟩

/-- Claim C6: a patch containing only `gpa` changes only `gpa`: the record
returned and the record stored afterwards are `R` with its gpa replaced, so
`name`, `email`, `course` and `id` keep their prior values, and fields
absent from the patch are never written. -/
theorem C6_partial_update_isolation (db : Store) (id : String) (R : StudentModel)
    (v : Rat) (h : find_one db id = some R) :
    (update_student db id (gpaPatchBody v)).1 = Except.ok { R with gpa := v }
    ∧ find_one (update_student db id (gpaPatchBody v)).2.1 id
        = some { R with gpa := v } := by
  have hA : applySet R { name := none, email := none, course := none, gpa := some v }
      = { R with gpa := v } := rfl
  obtain ⟨h1, h2, h3⟩ := update_student_found db id (gpaPatchBody v)
    { name := none, email := none, course := none, gpa := some v } R rfl rfl h
  rw [hA] at h1 h2
  exact ⟨h1, h2⟩

/-- Witness for C6 at a concrete one-record collection and the spec's
example patch value 3.5. -/
theorem C6_partial_update_isolation_witness :
    (update_student [studentJane] fid0 (gpaPatchBody 3.5)).1
      = Except.ok { studentJane with gpa := 3.5 }
    ∧ find_one (update_student [studentJane] fid0 (gpaPatchBody 3.5)).2.1 fid0
        = some { studentJane with gpa := 3.5 } := by
  have hh := C6_partial_update_isolation [studentJane] fid0 studentJane 3.5 rfl
  exact hh

/-- Claim C7: round-trip — creating from any body that validates to a record
S over a collection not already holding S's id persists exactly S, answers
201 with S, and a subsequent get on the returned id answers S, whose
name/email/course/gpa equal the payload's; only the id is server-assigned. -/
theorem C7_round_trip (db : Store) (freshId : String) (b : CreateBody)
    (S : StudentModel) (hv : validateCreate freshId b = Except.ok S)
    (hfree : find_one db S.id = none) :
    create_student db freshId b = Except.ok (db ++ [S], some S)
    ∧ (show_student (db ++ [S]) S.id).1 = Except.ok S
    ∧ b.name = some S.name ∧ b.email = some S.email
    ∧ b.course = some S.course ∧ b.gpa = some S.gpa := by
  have hfind : find_one (db ++ [S]) S.id = some S := find_one_append_self db S hfree
  have hproj := validateCreate_proj freshId b S hv
  refine ⟨?_, ?_, hproj.1, hproj.2.1, hproj.2.2.1, hproj.2.2.2⟩
  · simp only [create_student, hv, insert_one, hfree, hfind]
  · simp only [show_student, hfind]

/-- Witness for C7: the spec's concrete scenario body round-trips. -/
theorem C7_round_trip_witness :
    create_student [] fid0 bodyJane = Except.ok ([studentJane], some studentJane)
    ∧ (show_student [studentJane] studentJane.id).1 = Except.ok studentJane := by
  have hh := C7_round_trip [] fid0 bodyJane studentJane rfl rfl
  exact ⟨hh.1, hh.2.1⟩

/-- Claim C3, counterexample: `"not-a-valid-id"` is not 24 hex characters,
yet `show_student` does not fail with the identifier-format error before
reaching storage — it issues the `find_one` storage call with the malformed
string and fails `notFound` (404). -/
theorem C3_counterexample :
    isValidObjectId "not-a-valid-id" = false
    ∧ show_student [] "not-a-valid-id"
        = (Except.error (Err.notFound "not-a-valid-id"),
           [StorageCall.findOne "not-a-valid-id"])
    ∧ Err.notFound "not-a-valid-id" ≠ Err.invalidIdentifier "not-a-valid-id" := by
  refine ⟨rfl, rfl, fun hcon => Err.noConfusion hcon⟩

/-- Claim C3 (amended): the handlers perform no identifier-format check at
all.  A malformed identifier is passed unchanged into the storage call
(`find_one` / `delete_one` / `update_one`), fails to match any record of a
collection whose identifiers are all well-formed, and the surfaced failure
is `notFound` (404), identical to a well-formed but absent identifier. -/
theorem C3_malformed_id_reaches_storage (db : Store) (id : String) (b : PatchBody)
    (u : UpdateStudentModel)
    (hdb : ∀ s ∈ db, isValidObjectId s.id = true)
    (hid : isValidObjectId id = false)
    (hb : parseUpdateBody b = Except.ok u) :
    show_student db id = (Except.error (Err.notFound id), [StorageCall.findOne id])
    ∧ (delete_student db id).1 = Except.error (Err.notFound id)
    ∧ (delete_student db id).2.1 = db
    ∧ (delete_student db id).2.2 = [StorageCall.deleteOne id]
    ∧ (update_student db id b).1 = Except.error (Err.notFound id)
    ∧ (update_student db id b).2.1 = db
    ∧ StorageCall.findOne id ∈ (update_student db id b).2.2 := by
  have hnone : find_one db id = none := by
    apply find_one_eq_none_of_forall
    intro s hs hsid
    have hv := hdb s hs
    rw [hsid, hid] at hv
    exact Bool.noConfusion hv
  have hdel := delete_one_of_none db id hnone
  have hup := update_one_of_none db id u hnone
  refine ⟨by simp [show_student, hnone], ?_, ?_, ?_, ?_, ?_, ?_⟩
  · simp [delete_student, hdel]
  · simp [delete_student, hdel]
  · simp [delete_student, hdel]
  · cases hne : patchNonempty u with
    | false =>
      simp only [update_student, hb, hne, Bool.false_eq_true, if_false]
      rw [updateFallback_notfound db id [] hnone]
    | true =>
      simp only [update_student, hb, hne, if_true]
      rw [hup, updateFallback_notfound db id [StorageCall.updateOne id] hnone]
      simp
  · cases hne : patchNonempty u with
    | false =>
      simp only [update_student, hb, hne, Bool.false_eq_true, if_false]
      rw [updateFallback_notfound db id [] hnone]
    | true =>
      simp only [update_student, hb, hne, if_true]
      rw [hup, updateFallback_notfound db id [StorageCall.updateOne id] hnone]
      simp
  · cases hne : patchNonempty u with
    | false =>
      simp only [update_student, hb, hne, Bool.false_eq_true, if_false]
      rw [updateFallback_notfound db id [] hnone]
      simp
    | true =>
      simp only [update_student, hb, hne, if_true]
      rw [hup, updateFallback_notfound db id [StorageCall.updateOne id] hnone]
      simp

/-- Witness for C3 (amended) at a concrete one-record collection and the
malformed identifier of the spec's example. -/
theorem C3_malformed_id_reaches_storage_witness :
    show_student [studentJane] "not-a-valid-id"
      = (Except.error (Err.notFound "not-a-valid-id"),
         [StorageCall.findOne "not-a-valid-id"])
    ∧ (delete_student [studentJane] "not-a-valid-id").1
        = Except.error (Err.notFound "not-a-valid-id")
    ∧ (update_student [studentJane] "not-a-valid-id" emptyPatchBody).1
        = Except.error (Err.notFound "not-a-valid-id") := by
  have hh := C3_malformed_id_reaches_storage [studentJane] "not-a-valid-id"
    emptyPatchBody { name := none, email := none, course := none, gpa := none }
    (by decide) (by decide) rfl
  exact ⟨hh.1, hh.2.1, hh.2.2.2.2.1⟩

/-- Claim C4, counterexample: the record persisted and returned by a
successful create renders the identifier under the key `"_id"`, not `"id"`:
`jsonable_encoder` keeps pydantic aliases (`by_alias=True` is its default)
and `create_student` answers with the stored document as-is. -/
theorem C4_counterexample :
    create_student [] fid0 bodyJane = Except.ok ([studentJane], some studentJane)
    ∧ (encodeStudent studentJane).map Prod.fst
        = ["_id", "name", "email", "course", "gpa"]
    ∧ "id" ∉ (encodeStudent studentJane).map Prod.fst
    ∧ "_id" ∈ (encodeStudent studentJane).map Prod.fst := by
  refine ⟨rfl, rfl, by decide, by decide⟩

/-- Claim C4 (amended): for every record a successful create persists and
returns, the wire document carries the identifier as a string under the
field `"_id"` (the pydantic alias), and contains exactly the fields `_id`,
`name`, `email`, `course`, `gpa`; no field is named `id`. -/
theorem C4_wire_shape (db : Store) (freshId : String) (b : CreateBody)
    (db1 : Store) (C : StudentModel)
    (h : create_student db freshId b = Except.ok (db1, some C)) :
    encodeStudent C = [("_id", JVal.str C.id), ("name", JVal.str C.name),
                       ("email", JVal.str C.email), ("course", JVal.str C.course),
                       ("gpa", JVal.num C.gpa)]
    ∧ (encodeStudent C).map Prod.fst = ["_id", "name", "email", "course", "gpa"]
    ∧ "id" ∉ (encodeStudent C).map Prod.fst := by
  refine ⟨rfl, rfl, ?_⟩
  show ("id" : String) ∉ ["_id", "name", "email", "course", "gpa"]
  decide

/-- Witness for C4 (amended) at the concrete create of the spec's
scenario. -/
theorem C4_wire_shape_witness :
    (encodeStudent studentJane).map Prod.fst = ["_id", "name", "email", "course", "gpa"]
    ∧ "id" ∉ (encodeStudent studentJane).map Prod.fst := by
  have hh := C4_wire_shape [] fid0 bodyJane [studentJane] studentJane rfl
  exact ⟨hh.2.1, hh.2.2⟩

/-- A create body that supplies its own identifier (the alias key `"_id"`,
or `"id"` via `allow_population_by_field_name`). -/
def bodyCid : CreateBody :=
  { id := some "aaaaaaaaaaaaaaaaaaaaaaab", name := some "Jane Doe",
    email := some "jdoe@example.com", course := some "Nanophotonics", gpa := some 3 }

/-- The record persisted for `bodyCid`: its identifier is the one the client
supplied, not a fresh one. -/
def studentCid : StudentModel :=
  { id := "aaaaaaaaaaaaaaaaaaaaaaab", name := "Jane Doe",
    email := "jdoe@example.com", course := "Nanophotonics", gpa := 3 }

/-- Claim C8, counterexample: a client-supplied id in the create body does
determine the stored record's identifier — create with body id
`"aaaaaaaaaaaaaaaaaaaaaaab"` persists exactly that identifier instead of the
application-generated fresh one `fid0`. -/
theorem C8_counterexample :
    create_student [] fid0 bodyCid = Except.ok ([studentCid], some studentCid)
    ∧ studentCid.id = "aaaaaaaaaaaaaaaaaaaaaaab"
    ∧ fid0 ≠ "aaaaaaaaaaaaaaaaaaaaaaab" := by
  refine ⟨rfl, rfl, by decide⟩

/-- Claim C8 (amended): the persisted identifier is never produced by the
storage layer — it is fixed at validation time, before `insert_one` runs:
it equals the client-supplied body id (canonical lowercase form) when one is
present, and the application-side `default_factory` ObjectId otherwise. -/
theorem C8_id_source (freshId : String) (b : CreateBody) (S : StudentModel)
    (h : validateCreate freshId b = Except.ok S) :
    S.id = (match b.id with | some s => lowerStr s | none => freshId) :=
  validateCreate_id freshId b S h

/-- Witness for C8 (amended): the concrete body `bodyCid` supplies an id and
the validated record carries exactly its lowercase form. -/
theorem C8_id_source_witness : studentCid.id = lowerStr "aaaaaaaaaaaaaaaaaaaaaaab" :=
  C8_id_source fid0 bodyCid studentCid rfl

/-- Claim C9: delete succeeds (204, empty body) iff a record with the given
identifier existed — in which case exactly one record is removed — and on
a collection with unique identifiers a second delete of the same identifier
fails `notFound`. -/
theorem C9_delete_semantics (db : Store) (id : String)
    (hnd : (db.map StudentModel.id).Nodup) :
    ((delete_student db id).1 = Except.ok () ↔ ∃ s ∈ db, s.id = id)
    ∧ ((delete_student db id).1 = Except.ok () →
        db.length = (delete_student db id).2.1.length + 1
        ∧ (delete_student (delete_student db id).2.1 id).1
            = Except.error (Err.notFound id)) := by
  cases hf : find_one db id with
  | none =>
    have hdel := delete_one_of_none db id hf
    have hres : delete_student db id
        = (Except.error (Err.notFound id), db, [StorageCall.deleteOne id]) := by
      simp [delete_student, hdel]
    rw [hres]
    constructor
    · constructor
      · intro hcon
        exact Except.noConfusion hcon
      · rintro ⟨s, hs, hsid⟩
        have hsome := (find_one_isSome_iff db id).mpr ⟨s, hs, hsid⟩
        rw [hf] at hsome
        exact Bool.noConfusion hsome
    · intro hcon
      exact Except.noConfusion hcon
  | some R =>
    obtain ⟨hc1, hlen⟩ := delete_one_of_some db id R hf
    have hres : delete_student db id
        = (Except.ok (), (delete_one db id).1, [StorageCall.deleteOne id]) := by
      simp [delete_student, hc1]
    have hgone : find_one (delete_one db id).1 id = none :=
      delete_one_nodup_gone db id hnd (by rw [hf]; rfl)
    have hdel2 := delete_one_of_none (delete_one db id).1 id hgone
    rw [hres]
    refine ⟨⟨fun _ => (find_one_isSome_iff db id).mp (by rw [hf]; rfl), fun _ => rfl⟩, ?_⟩
    intro _
    refine ⟨hlen, ?_⟩
    simp [delete_student, hdel2]

/-- Witness for C9 at a concrete one-record collection: the first delete
succeeds, the second fails `notFound`. -/
theorem C9_delete_semantics_witness :
    (delete_student [studentJane] fid0).1 = Except.ok ()
    ∧ (delete_student (delete_student [studentJane] fid0).2.1 fid0).1
        = Except.error (Err.notFound fid0) := by
  have hh := C9_delete_semantics [studentJane] fid0 (by simp)
  have hsucc : (delete_student [studentJane] fid0).1 = Except.ok () :=
    hh.1.mpr ⟨studentJane, by simp, rfl⟩
  exact ⟨hsucc, (hh.2 hsucc).2⟩
